import Mathlib

/-!
Verification of the Tamagotchi core of `Dramagotchi.py`.

The embedding models the stat-decay and action logic of the `Tamagotchi`
dataclass.  Machine integers are modelled as `ℤ` (Python integers are
unbounded anyway), timestamps as `ℚ` measured in seconds (the code computes
`elapsed.total_seconds() / 60`), and Python `int()` truncation toward zero
as `pyInt`.  The code reads the current time from the system clock inside
`tick`; here the current time `now` is an explicit argument, as every call
site obtains it fresh from the clock.  Actions mutate the object in place
and return a message; they are modelled as functions `Tamagotchi → ℚ →
Tamagotchi × String`.
-/

namespace Dramagotchi

/-- `MAX_STAT = 100` from the source. -/
def MAX_STAT : ℤ := 100

/-- `MIN_STAT = 0` from the source. -/
def MIN_STAT : ℤ := 0

/-- `clamp(value, low=MIN_STAT, high=MAX_STAT) = max(low, min(high, value))`.
Every call in the source uses the default bounds, so they are inlined. -/
def clamp (value : ℤ) : ℤ :=
  max MIN_STAT (min MAX_STAT value)

/-- Python `int()` applied to a (rational) number: truncation toward zero. -/
def pyInt (q : ℚ) : ℤ :=
  if 0 ≤ q then ⌊q⌋ else ⌈q⌉

/-- The `Tamagotchi` dataclass: four stats, a last-update timestamp
(seconds), and four per-minute decay rates with their source defaults. -/
structure Tamagotchi where
  name : String
  hunger : ℤ := 65
  happiness : ℤ := 60
  energy : ℤ := 55
  hygiene : ℤ := 70
  last_update : ℚ
  hunger_decay : ℤ := 4
  happiness_decay : ℤ := 2
  energy_decay : ℤ := 3
  hygiene_decay : ℤ := 1
  deriving DecidableEq

/-- The local helper `decay(stat, rate)` inside `tick`, which closes over
the elapsed `minutes`: `clamp(stat - int(minutes * rate))`. -/
def decay (minutes : ℚ) (stat : ℤ) (rate : ℤ) : ℤ :=
  clamp (stat - pyInt (minutes * (rate : ℚ)))

/-- `Tamagotchi.tick`: computes elapsed minutes since `last_update`,
returns unchanged when `minutes <= 0`, otherwise decays each stat and sets
`last_update = now`. -/
def tick (p : Tamagotchi) (now : ℚ) : Tamagotchi :=
  if (now - p.last_update) / 60 ≤ 0 then p
  else
    { p with
      hunger := decay ((now - p.last_update) / 60) p.hunger p.hunger_decay
      happiness := decay ((now - p.last_update) / 60) p.happiness p.happiness_decay
      energy := decay ((now - p.last_update) / 60) p.energy p.energy_decay
      hygiene := decay ((now - p.last_update) / 60) p.hygiene p.hygiene_decay
      last_update := now }

/-- `Tamagotchi.is_alive`: `all(stat > MIN_STAT for stat in (hunger,
happiness, energy, hygiene))`. -/
def is_alive (p : Tamagotchi) : Bool :=
  [p.hunger, p.happiness, p.energy, p.hygiene].all fun stat => decide (MIN_STAT < stat)

/-- The bar part of a `summary` line: `"█" * (value // 5)`.  Python `//` is
floor division, and repeating a string a negative number of times yields the
empty string, which `Int.toNat` reproduces. -/
def bar_str (value : ℤ) : String :=
  String.mk (List.replicate (Int.fdiv value 5).toNat '█')

/-- Right-alignment padding as in the format specs `{label:>10}` and
`{value:3d}`. -/
def pad_left (s : String) (width : Nat) : String :=
  String.mk (List.replicate (width - s.length) ' ') ++ s

/-- One line of `summary`: `f"{label:>10}: {value:3d} % |" + "█" * (value // 5)`. -/
def stat_line (label : String) (value : ℤ) : String :=
  pad_left label 10 ++ ": " ++ pad_left (toString value) 3 ++ " % |" ++ bar_str value

/-- `Tamagotchi.summary`: one line per stat, joined by newlines, in the
declaration order of the `bars` dict. -/
def summary (p : Tamagotchi) : String :=
  String.intercalate "\n"
    (([("Hunger", p.hunger), ("Happiness", p.happiness),
       ("Energy", p.energy), ("Hygiene", p.hygiene)] : List (String × ℤ)).map
      fun b => stat_line b.1 b.2)

/-- The `needs` list of `_mood_text`: descriptors of the stats strictly
below 30, in the declaration order of the `moods` list. -/
def needs_of (p : Tamagotchi) : List String :=
  (([(p.hunger, "hungry"), (p.happiness, "bored"),
     (p.energy, "sleepy"), (p.hygiene, "dirty")] : List (ℤ × String)).filter
    fun m => decide (m.1 < 30)).map Prod.snd

/-- `Tamagotchi._mood_text`: a feeling-great sentence when no stat is below
30, otherwise the needs joined by `" and "`. -/
def mood_text (p : Tamagotchi) : String :=
  if needs_of p = [] then p.name ++ " is feeling great!"
  else p.name ++ " feels a bit " ++ String.intercalate " and " (needs_of p) ++ "."

/-- `Tamagotchi.feed`: tick, then `hunger+25`, `energy+5`, `hygiene-5`, each
clamped, returning `"Yummy! "` plus the mood text of the updated state. -/
def feed (p : Tamagotchi) (now : ℚ) : Tamagotchi × String :=
  let p1 := tick p now
  let p2 := { p1 with hunger := clamp (p1.hunger + 25) }
  let p3 := { p2 with energy := clamp (p2.energy + 5) }
  let p4 := { p3 with hygiene := clamp (p3.hygiene - 5) }
  (p4, "Yummy! " ++ mood_text p4)

/-- `Tamagotchi.play`: tick, then refuse when `energy < 15`, otherwise
`happiness+20`, `energy-15`, `hunger-10`, `hygiene-5`, each clamped. -/
def play (p : Tamagotchi) (now : ℚ) : Tamagotchi × String :=
  let p1 := tick p now
  if p1.energy < 15 then (p1, "Too tired to play right now. Maybe a nap first?")
  else
    let p2 := { p1 with happiness := clamp (p1.happiness + 20) }
    let p3 := { p2 with energy := clamp (p2.energy - 15) }
    let p4 := { p3 with hunger := clamp (p3.hunger - 10) }
    let p5 := { p4 with hygiene := clamp (p4.hygiene - 5) }
    (p5, "That was fun! " ++ mood_text p5)

/-- `Tamagotchi.sleep`: tick, then `energy+25`, `hunger-10`, fixed message. -/
def sleep (p : Tamagotchi) (now : ℚ) : Tamagotchi × String :=
  let p1 := tick p now
  let p2 := { p1 with energy := clamp (p1.energy + 25) }
  let p3 := { p2 with hunger := clamp (p2.hunger - 10) }
  (p3, "Zzz... Feeling rested now!")

/-- `Tamagotchi.clean`: tick, then `hygiene+30`, `happiness-5`, fixed message. -/
def clean (p : Tamagotchi) (now : ℚ) : Tamagotchi × String :=
  let p1 := tick p now
  let p2 := { p1 with hygiene := clamp (p1.hygiene + 30) }
  let p3 := { p2 with happiness := clamp (p2.happiness - 5) }
  (p3, "Splash splash! All squeaky clean.")

/-- `Tamagotchi.talk`: tick, then the mood text; no stat delta. -/
def talk (p : Tamagotchi) (now : ℚ) : Tamagotchi × String :=
  let p1 := tick p now
  (p1, mood_text p1)

/-- The `status` command of the CLI loop: the loop calls `pet.tick()` and
then dispatches to `pet.summary`, which itself performs no mutation. -/
def status (p : Tamagotchi) (now : ℚ) : Tamagotchi × String :=
  let p1 := tick p now
  (p1, summary p1)

/-- Construction with the dataclass defaults, as done by both interfaces:
`Tamagotchi(name)` with the creation timestamp. -/
def create (name : String) (now : ℚ) : Tamagotchi :=
  { name := name, last_update := now }

/-- The clamp invariant: every stat lies in `[0, 100]`. -/
def StatsInRange (p : Tamagotchi) : Prop :=
  (0 ≤ p.hunger ∧ p.hunger ≤ 100) ∧ (0 ≤ p.happiness ∧ p.happiness ≤ 100) ∧
    (0 ≤ p.energy ∧ p.energy ≤ 100) ∧ (0 ≤ p.hygiene ∧ p.hygiene ≤ 100)

instance : DecidablePred StatsInRange := fun p => by
  unfold StatsInRange
  infer_instance

/-- A default-constructed pet, used as concrete input for witnesses. -/
def pet0 : Tamagotchi := create "Momo" 0

/-- A pet observed in game over: its hygiene stat is zero. -/
def deadPet : Tamagotchi :=
  { name := "Momo", hunger := 50, happiness := 60, energy := 55, hygiene := 0, last_update := 0 }

/-- A pet whose energy decays below the play threshold between interactions. -/
def sleepyPet : Tamagotchi :=
  { name := "Momo", hunger := 50, happiness := 50, energy := 20, hygiene := 50, last_update := 0 }

/-- A pet whose hunger and energy are low but happiness and hygiene are high. -/
def moodPet : Tamagotchi :=
  { name := "Momo", hunger := 10, happiness := 80, energy := 10, hygiene := 80, last_update := 0 }

lemma clamp_nonneg (v : ℤ) : 0 ≤ clamp v := by
  simp only [clamp, MIN_STAT, MAX_STAT]
  omega

lemma clamp_le (v : ℤ) : clamp v ≤ 100 := by
  simp only [clamp, MIN_STAT, MAX_STAT]
  omega

lemma clamp_of_nonpos (v : ℤ) (h : v ≤ 0) : clamp v = 0 := by
  simp only [clamp, MIN_STAT, MAX_STAT]
  omega

lemma pyInt_eq_floor (q : ℚ) (h : 0 ≤ q) : pyInt q = ⌊q⌋ := if_pos h

lemma pyInt_nonneg (q : ℚ) (h : 0 ≤ q) : 0 ≤ pyInt q := by
  rw [pyInt_eq_floor q h]
  exact Int.floor_nonneg.mpr h

lemma decay_of_zero (minutes : ℚ) (rate : ℤ) (hm : 0 ≤ minutes) (hr : 0 ≤ rate) :
    decay minutes 0 rate = 0 := by
  unfold decay
  apply clamp_of_nonpos
  have := pyInt_nonneg (minutes * (rate : ℚ)) (mul_nonneg hm (by exact_mod_cast hr))
  omega

lemma StatsInRange_tick (p : Tamagotchi) (now : ℚ) (h : StatsInRange p) :
    StatsInRange (tick p now) := by
  unfold tick
  split
  · exact h
  · exact ⟨⟨clamp_nonneg _, clamp_le _⟩, ⟨clamp_nonneg _, clamp_le _⟩,
      ⟨clamp_nonneg _, clamp_le _⟩, ⟨clamp_nonneg _, clamp_le _⟩⟩

lemma tick_last_update_of_lt (p : Tamagotchi) (now : ℚ) (h : p.last_update < now) :
    (tick p now).last_update = now := by
  rw [tick, if_neg]
  exact not_le.mpr (div_pos (sub_pos.mpr h) (by norm_num))

lemma too_tired_ne_fun (m : String) :
    ("Too tired to play right now. Maybe a nap first?" : String) ≠ "That was fun! " ++ m := by
  intro h
  have h2 : ("Too tired to play right now. Maybe a nap first?" : String).data
      = ("That was fun! " : String).data ++ m.data := by
    rw [← String.data_append]
    exact congrArg String.data h
  have h3 := congrArg (List.take 2) h2
  rw [List.take_append_of_le_length (by decide)] at h3
  exact absurd h3 (by decide)

/-- Claim C2: on a strictly positive elapsed interval, `tick` sets every
stat independently to `clamp(stat - ⌊minutes * rate⌋)` with the same
elapsed-minutes figure for all four stats, then sets `last_update = now`
(decay rates are nonnegative, as configured by the dataclass defaults). -/
theorem tick_decay_floor_formula (p : Tamagotchi) (now : ℚ)
    (hpos : 0 < (now - p.last_update) / 60)
    (h1 : 0 ≤ p.hunger_decay) (h2 : 0 ≤ p.happiness_decay)
    (h3 : 0 ≤ p.energy_decay) (h4 : 0 ≤ p.hygiene_decay) :
    tick p now =
      { p with
        hunger := clamp (p.hunger - ⌊(now - p.last_update) / 60 * (p.hunger_decay : ℚ)⌋)
        happiness := clamp (p.happiness - ⌊(now - p.last_update) / 60 * (p.happiness_decay : ℚ)⌋)
        energy := clamp (p.energy - ⌊(now - p.last_update) / 60 * (p.energy_decay : ℚ)⌋)
        hygiene := clamp (p.hygiene - ⌊(now - p.last_update) / 60 * (p.hygiene_decay : ℚ)⌋)
        last_update := now } := by
  rw [tick, if_neg (not_le.mpr hpos)]
  unfold decay
  rw [pyInt_eq_floor _ (mul_nonneg hpos.le (by exact_mod_cast h1)),
    pyInt_eq_floor _ (mul_nonneg hpos.le (by exact_mod_cast h2)),
    pyInt_eq_floor _ (mul_nonneg hpos.le (by exact_mod_cast h3)),
    pyInt_eq_floor _ (mul_nonneg hpos.le (by exact_mod_cast h4))]

/-- Witness for C2: the default pet (hunger 65, hunger decay 4) advanced by
exactly 10 minutes (600 seconds) has hunger `clamp(65 - 40) = 25`. -/
theorem tick_decay_floor_formula_witness :
    0 < ((600 : ℚ) - pet0.last_update) / 60 ∧ (tick pet0 600).hunger = 25 := by
  have hpos : 0 < ((600 : ℚ) - pet0.last_update) / 60 := by
    norm_num [pet0, create]
  have h := tick_decay_floor_formula pet0 600 hpos
    (by decide) (by decide) (by decide) (by decide)
  refine ⟨hpos, ?_⟩
  rw [h]
  norm_num [pet0, create, clamp, MIN_STAT, MAX_STAT]

/-- Claim C4: `tick` with zero or negative elapsed time (now at or before
`last_update`) changes neither the stats nor `last_update`. -/
theorem tick_nonpositive_elapsed_noop (p : Tamagotchi) (now : ℚ)
    (h : now ≤ p.last_update) : tick p now = p := by
  rw [tick, if_pos]
  exact div_nonpos_iff.mpr (Or.inr ⟨sub_nonpos.mpr h, by norm_num⟩)

/-- Witness for C4: ticking the default pet at its own creation time is the
identity. -/
theorem tick_nonpositive_elapsed_noop_witness :
    (0 : ℚ) ≤ pet0.last_update ∧ tick pet0 0 = pet0 := by
  have h : (0 : ℚ) ≤ pet0.last_update := by norm_num [pet0, create]
  exact ⟨h, tick_nonpositive_elapsed_noop pet0 0 h⟩

/-- Claim C5: after the leading advance, each unconditional action applies
exactly its fixed clamped deltas and leaves the other stats at their
post-advance values: `feed` is hunger +25, energy +5, hygiene −5 with a
"Yummy!" prefix and the mood text of the result; `sleep` is energy +25,
hunger −10 with a fixed rested message; `clean` is hygiene +30,
happiness −5 with a fixed clean message; `talk` changes nothing and
returns the mood text only. -/
theorem unconditional_action_deltas (p : Tamagotchi) (now : ℚ) :
    ((feed p now).1.hunger = clamp ((tick p now).hunger + 25) ∧
      (feed p now).1.energy = clamp ((tick p now).energy + 5) ∧
      (feed p now).1.hygiene = clamp ((tick p now).hygiene - 5) ∧
      (feed p now).1.happiness = (tick p now).happiness ∧
      (feed p now).1.last_update = (tick p now).last_update ∧
      (feed p now).2 = "Yummy! " ++ mood_text (feed p now).1) ∧
    ((sleep p now).1.energy = clamp ((tick p now).energy + 25) ∧
      (sleep p now).1.hunger = clamp ((tick p now).hunger - 10) ∧
      (sleep p now).1.happiness = (tick p now).happiness ∧
      (sleep p now).1.hygiene = (tick p now).hygiene ∧
      (sleep p now).1.last_update = (tick p now).last_update ∧
      (sleep p now).2 = "Zzz... Feeling rested now!") ∧
    ((clean p now).1.hygiene = clamp ((tick p now).hygiene + 30) ∧
      (clean p now).1.happiness = clamp ((tick p now).happiness - 5) ∧
      (clean p now).1.hunger = (tick p now).hunger ∧
      (clean p now).1.energy = (tick p now).energy ∧
      (clean p now).1.last_update = (tick p now).last_update ∧
      (clean p now).2 = "Splash splash! All squeaky clean.") ∧
    ((talk p now).1 = tick p now ∧
      (talk p now).2 = mood_text (tick p now)) :=
  ⟨⟨rfl, rfl, rfl, rfl, rfl, rfl⟩, ⟨rfl, rfl, rfl, rfl, rfl, rfl⟩,
    ⟨rfl, rfl, rfl, rfl, rfl, rfl⟩, rfl, rfl⟩

/-- Claim C1: every stat stays in `[0, 100]` after every operation, for
every state already satisfying the clamp invariant (every reachable state
does: creation uses the in-range defaults) and every current time. -/
theorem stats_in_range_after_any_operation (p : Tamagotchi) (now : ℚ)
    (h : StatsInRange p) :
    StatsInRange (tick p now) ∧ StatsInRange (feed p now).1 ∧
      StatsInRange (play p now).1 ∧ StatsInRange (sleep p now).1 ∧
      StatsInRange (clean p now).1 ∧ StatsInRange (talk p now).1 ∧
      StatsInRange (status p now).1 := by
  have ht := StatsInRange_tick p now h
  obtain ⟨⟨a1, a2⟩, ⟨b1, b2⟩, ⟨c1, c2⟩, ⟨d1, d2⟩⟩ := ht
  refine ⟨⟨⟨a1, a2⟩, ⟨b1, b2⟩, ⟨c1, c2⟩, ⟨d1, d2⟩⟩, ?_, ?_, ?_, ?_, ?_, ?_⟩
  · exact ⟨⟨clamp_nonneg _, clamp_le _⟩, ⟨b1, b2⟩,
      ⟨clamp_nonneg _, clamp_le _⟩, ⟨clamp_nonneg _, clamp_le _⟩⟩
  · by_cases hc : (tick p now).energy < 15
    · have hfst : (play p now).1 = tick p now := by
        simp only [play]
        rw [if_pos hc]
      rw [hfst]
      exact ⟨⟨a1, a2⟩, ⟨b1, b2⟩, ⟨c1, c2⟩, ⟨d1, d2⟩⟩
    · have hfst : (play p now).1 =
          { tick p now with
            happiness := clamp ((tick p now).happiness + 20)
            energy := clamp ((tick p now).energy - 15)
            hunger := clamp ((tick p now).hunger - 10)
            hygiene := clamp ((tick p now).hygiene - 5) } := by
        simp only [play]
        rw [if_neg hc]
      rw [hfst]
      exact ⟨⟨clamp_nonneg _, clamp_le _⟩, ⟨clamp_nonneg _, clamp_le _⟩,
        ⟨clamp_nonneg _, clamp_le _⟩, ⟨clamp_nonneg _, clamp_le _⟩⟩
  · exact ⟨⟨clamp_nonneg _, clamp_le _⟩, ⟨b1, b2⟩,
      ⟨clamp_nonneg _, clamp_le _⟩, ⟨d1, d2⟩⟩
  · exact ⟨⟨a1, a2⟩, ⟨clamp_nonneg _, clamp_le _⟩,
      ⟨c1, c2⟩, ⟨clamp_nonneg _, clamp_le _⟩⟩
  · exact ⟨⟨a1, a2⟩, ⟨b1, b2⟩, ⟨c1, c2⟩, ⟨d1, d2⟩⟩
  · exact ⟨⟨a1, a2⟩, ⟨b1, b2⟩, ⟨c1, c2⟩, ⟨d1, d2⟩⟩

/-- Witness for C1: the default pet satisfies the invariant, and so do the
results of all operations ten minutes later. -/
theorem stats_in_range_after_any_operation_witness :
    StatsInRange pet0 ∧
      (StatsInRange (tick pet0 600) ∧ StatsInRange (feed pet0 600).1 ∧
        StatsInRange (play pet0 600).1 ∧ StatsInRange (sleep pet0 600).1 ∧
        StatsInRange (clean pet0 600).1 ∧ StatsInRange (talk pet0 600).1 ∧
        StatsInRange (status pet0 600).1) :=
  ⟨by decide, stats_in_range_after_any_operation pet0 600 (by decide)⟩

/-- Claim C3: `play` refuses exactly when the post-advance energy is
strictly below 15, in which case it changes no stat relative to the
post-advance state and returns the refusal message (never the fun
message); otherwise it applies happiness +20, energy −15, hunger −10,
hygiene −5, each clamped, and returns the fun message. -/
theorem play_energy_threshold (p : Tamagotchi) (now : ℚ) :
    ((tick p now).energy < 15 →
      (play p now).1 = tick p now ∧
        (play p now).2 = "Too tired to play right now. Maybe a nap first?" ∧
        ∀ m : String, (play p now).2 ≠ "That was fun! " ++ m) ∧
    (15 ≤ (tick p now).energy →
      (play p now).1 =
          { tick p now with
            happiness := clamp ((tick p now).happiness + 20)
            energy := clamp ((tick p now).energy - 15)
            hunger := clamp ((tick p now).hunger - 10)
            hygiene := clamp ((tick p now).hygiene - 5) } ∧
        (play p now).2 = "That was fun! " ++ mood_text (play p now).1) := by
  constructor
  · intro hc
    have hpair : play p now = (tick p now, "Too tired to play right now. Maybe a nap first?") := by
      simp only [play]
      rw [if_pos hc]
    rw [hpair]
    exact ⟨rfl, rfl, fun m => too_tired_ne_fun m⟩
  · intro hge
    have hc := not_lt.mpr hge
    have hpair : play p now =
        ({ tick p now with
            happiness := clamp ((tick p now).happiness + 20)
            energy := clamp ((tick p now).energy - 15)
            hunger := clamp ((tick p now).hunger - 10)
            hygiene := clamp ((tick p now).hygiene - 5) },
          "That was fun! " ++ mood_text
            { tick p now with
              happiness := clamp ((tick p now).happiness + 20)
              energy := clamp ((tick p now).energy - 15)
              hunger := clamp ((tick p now).hunger - 10)
              hygiene := clamp ((tick p now).hygiene - 5) }) := by
      simp only [play]
      rw [if_neg hc]
    rw [hpair]
    exact ⟨rfl, rfl⟩

/-- Witness for C3: a pet whose energy is 10 (< 15) refuses to play with
all stats untouched, and one with energy 55 (≥ 15) plays. -/
theorem play_energy_threshold_witness :
    ((tick moodPet 0).energy < 15 ∧
      (play moodPet 0).1 = tick moodPet 0 ∧
      (play moodPet 0).2 = "Too tired to play right now. Maybe a nap first?") ∧
    (15 ≤ (tick pet0 0).energy ∧
      (play pet0 0).2 = "That was fun! " ++ mood_text (play pet0 0).1) := by
  have hlow : (tick moodPet 0).energy < 15 := by
    norm_num [tick, moodPet]
  have hge : 15 ≤ (tick pet0 0).energy := by
    norm_num [tick, pet0, create]
  have h1 := (play_energy_threshold moodPet 0).1 hlow
  have h2 := (play_energy_threshold pet0 0).2 hge
  exact ⟨⟨hlow, h1.1, h1.2.1⟩, ⟨hge, h2.2⟩⟩

/-- Claim C6: for the in-range states the code maintains, `is_alive` is
false exactly when some stat equals 0, and true exactly when all four
stats are strictly positive; it is a pure derived query computed from the
stats alone. -/
theorem is_alive_zero_characterization (p : Tamagotchi)
    (h1 : 0 ≤ p.hunger) (h2 : 0 ≤ p.happiness)
    (h3 : 0 ≤ p.energy) (h4 : 0 ≤ p.hygiene) :
    (is_alive p = false ↔
      (p.hunger = 0 ∨ p.happiness = 0 ∨ p.energy = 0 ∨ p.hygiene = 0)) ∧
    (is_alive p = true ↔
      (0 < p.hunger ∧ 0 < p.happiness ∧ 0 < p.energy ∧ 0 < p.hygiene)) := by
  simp only [is_alive, MIN_STAT, List.all_cons, List.all_nil, Bool.and_true,
    Bool.and_eq_true, Bool.and_eq_false_iff, decide_eq_true_eq,
    decide_eq_false_iff_not, not_lt]
  exact ⟨by omega, trivial⟩

/-- Witness for C6: the default pet is alive (all stats positive); the pet
with hygiene 0 is not. -/
theorem is_alive_zero_characterization_witness :
    (is_alive pet0 = true ↔
      (0 < pet0.hunger ∧ 0 < pet0.happiness ∧ 0 < pet0.energy ∧ 0 < pet0.hygiene)) ∧
    (is_alive deadPet = false ↔
      (deadPet.hunger = 0 ∨ deadPet.happiness = 0 ∨ deadPet.energy = 0 ∨
        deadPet.hygiene = 0)) :=
  ⟨(is_alive_zero_characterization pet0
      (by decide) (by decide) (by decide) (by decide)).2,
    (is_alive_zero_characterization deadPet
      (by decide) (by decide) (by decide) (by decide)).1⟩

/-- Claim C7: the mood text collects the descriptor of every stat strictly
below 30 — hunger→"hungry", happiness→"bored", energy→"sleepy",
hygiene→"dirty" — in stat-declaration order, joined by " and " into one
sentence, and is a single feeling-great sentence when no stat is below
30; with hunger 10, happiness 80, energy 10, hygiene 80 it lists exactly
"hungry" and "sleepy". -/
theorem mood_text_characterization (p : Tamagotchi) :
    needs_of p =
      (if p.hunger < 30 then ["hungry"] else []) ++
        (if p.happiness < 30 then ["bored"] else []) ++
        (if p.energy < 30 then ["sleepy"] else []) ++
        (if p.hygiene < 30 then ["dirty"] else []) ∧
    (needs_of p = [] → mood_text p = p.name ++ " is feeling great!") ∧
    (needs_of p ≠ [] →
      mood_text p =
        p.name ++ " feels a bit " ++ String.intercalate " and " (needs_of p) ++ ".") ∧
    needs_of moodPet = ["hungry", "sleepy"] ∧
    mood_text moodPet = "Momo feels a bit hungry and sleepy." := by
  refine ⟨?_, ?_, ?_, by decide, by decide⟩
  · simp only [needs_of, List.filter_cons, List.filter_nil, decide_eq_true_eq]
    split_ifs <;> rfl
  · intro h
    rw [mood_text, if_pos h]
  · intro h
    rw [mood_text, if_neg h]

/-- Witness for C7: applied to the concrete low-hunger, low-energy pet,
whose needs list is nonempty. -/
theorem mood_text_characterization_witness :
    needs_of moodPet ≠ [] ∧
      mood_text moodPet =
        moodPet.name ++ " feels a bit " ++
          String.intercalate " and " (needs_of moodPet) ++ "." :=
  ⟨by decide, (mood_text_characterization moodPet).2.2.1 (by decide)⟩

/-- Counterexample to C8 as stated: `deadPet` is in game over (hygiene 0,
`is_alive` false), yet `feed` still mutates its stats — hunger moves from
50 to 75.  The core does not gate actions on `is_alive`; the CLI loop and
the GUI stop issuing actions instead. -/
theorem game_over_not_terminal_counterexample :
    is_alive deadPet = false ∧ deadPet.hunger = 50 ∧
      (feed deadPet 0).1.hunger = 75 := by
  refine ⟨by decide, by decide, ?_⟩
  norm_num [feed, tick, deadPet, clamp, MIN_STAT, MAX_STAT]

/-- Amended C8: game over is terminal under decay alone — once a stat is 0,
`tick` keeps `is_alive` false (for nonnegative decay rates and in-range
stats), because decay never increases a stat and a zero stat stays zero.
Actions, however, are not gated by the core: invoked on a game-over state
they still apply their deltas (see the counterexample); the adapters stop
querying a dead pet instead. -/
theorem game_over_terminal_under_decay (p : Tamagotchi) (now : ℚ)
    (hr : StatsInRange p)
    (h1 : 0 ≤ p.hunger_decay) (h2 : 0 ≤ p.happiness_decay)
    (h3 : 0 ≤ p.energy_decay) (h4 : 0 ≤ p.hygiene_decay)
    (hdead : is_alive p = false) :
    is_alive (tick p now) = false := by
  obtain ⟨⟨a1, _⟩, ⟨b1, _⟩, ⟨c1, _⟩, ⟨d1, _⟩⟩ := hr
  by_cases hc : (now - p.last_update) / 60 ≤ 0
  · rw [tick, if_pos hc]
    exact hdead
  · rw [tick, if_neg hc]
    have hm : (0 : ℚ) ≤ (now - p.last_update) / 60 := (not_le.mp hc).le
    simp only [is_alive, MIN_STAT, List.all_cons, List.all_nil, Bool.and_true,
      Bool.and_eq_false_iff, decide_eq_false_iff_not, not_lt] at hdead ⊢
    rcases hdead with h | h | h | h
    · left
      rw [show p.hunger = 0 by omega, decay_of_zero _ _ hm h1]
    · right; left
      rw [show p.happiness = 0 by omega, decay_of_zero _ _ hm h2]
    · right; right; left
      rw [show p.energy = 0 by omega, decay_of_zero _ _ hm h3]
    · right; right; right
      rw [show p.hygiene = 0 by omega, decay_of_zero _ _ hm h4]

/-- Witness for the amended C8: the game-over pet stays game-over under a
ten-minute tick. -/
theorem game_over_terminal_under_decay_witness :
    (StatsInRange deadPet ∧ is_alive deadPet = false) ∧
      is_alive (tick deadPet 600) = false :=
  ⟨⟨by decide, by decide⟩,
    game_over_terminal_under_decay deadPet 600 (by decide)
      (by decide) (by decide) (by decide) (by decide) (by decide)⟩

/-- Claim C9: the status query mutates nothing beyond the leading advance
(it returns the advanced state untouched together with a string computed
from it alone), renders each of the four stats as a label, numeric
percentage and glyph bar, and the bar of a stat value `v` in `[0, 100]`
has exactly `⌊v / 5⌋` glyphs, hence between 0 and 20 of them. -/
theorem status_query_and_bar_length (p : Tamagotchi) (now : ℚ) :
    (status p now).1 = tick p now ∧
    (status p now).2 = summary (tick p now) ∧
    summary p =
      String.intercalate "\n"
        [stat_line "Hunger" p.hunger, stat_line "Happiness" p.happiness,
          stat_line "Energy" p.energy, stat_line "Hygiene" p.hygiene] ∧
    (∀ label : String, ∀ v : ℤ,
      stat_line label v =
        pad_left label 10 ++ ": " ++ pad_left (toString v) 3 ++ " % |" ++ bar_str v) ∧
    (∀ v : ℤ, 0 ≤ v → (bar_str v).length = (v / 5).toNat) ∧
    (∀ v : ℤ, 0 ≤ v → v ≤ 100 → (bar_str v).length ≤ 20) := by
  have hbar : ∀ v : ℤ, 0 ≤ v → (bar_str v).length = (v / 5).toNat := by
    intro v hv
    have hlen : (bar_str v).length = (Int.fdiv v 5).toNat := by
      simp [bar_str, String.length]
    rw [hlen, Int.fdiv_eq_ediv v (by norm_num)]
  refine ⟨rfl, rfl, rfl, fun label v => rfl, hbar, ?_⟩
  intro v hv hv100
  rw [hbar v hv]
  omega

/-- Witness for C9: the bar for a stat value of 65 has 13 glyphs, at most
20. -/
theorem status_query_and_bar_length_witness :
    ((0 : ℤ) ≤ 65 ∧ (65 : ℤ) ≤ 100) ∧
      (bar_str 65).length = ((65 : ℤ) / 5).toNat ∧ (bar_str 65).length ≤ 20 :=
  ⟨⟨by decide, by decide⟩,
    (status_query_and_bar_length pet0 0).2.2.2.2.1 65 (by decide),
    (status_query_and_bar_length pet0 0).2.2.2.2.2 65 (by decide) (by decide)⟩

/-- Claim C10 (implicit): when `play` refuses, the effects of the leading
advance persist — the returned state is exactly the post-advance state,
with decay applied and `last_update` already moved to `now`; only the
play deltas are skipped, so the pre-call state is not restored whenever
the advance changed anything. -/
theorem play_refusal_preserves_advance (p : Tamagotchi) (now : ℚ)
    (hpos : p.last_update < now) (hlow : (tick p now).energy < 15) :
    (play p now).1 = tick p now ∧
      (play p now).1.last_update = now ∧
      (tick p now ≠ p → (play p now).1 ≠ p) := by
  have hfst : (play p now).1 = tick p now := by
    simp only [play]
    rw [if_pos hlow]
  refine ⟨hfst, ?_, ?_⟩
  · rw [hfst]
    exact tick_last_update_of_lt p now hpos
  · intro hne
    rw [hfst]
    exact hne

/-- Witness for C10: a pet with energy 20 decays to energy 0 over ten
minutes, so `play` refuses, yet the returned state carries the decayed
stats and the new `last_update`, and differs from the pre-call state. -/
theorem play_refusal_preserves_advance_witness :
    (sleepyPet.last_update < (600 : ℚ) ∧ (tick sleepyPet 600).energy < 15) ∧
      (play sleepyPet 600).1 = tick sleepyPet 600 ∧
      (play sleepyPet 600).1.last_update = 600 := by
  have h1 : sleepyPet.last_update < (600 : ℚ) := by norm_num [sleepyPet]
  have h2 : (tick sleepyPet 600).energy < 15 := by
    norm_num [tick, sleepyPet, decay, pyInt, clamp, MIN_STAT, MAX_STAT]
  have h := play_refusal_preserves_advance sleepyPet 600 h1 h2
  exact ⟨⟨h1, h2⟩, h.1, h.2.1⟩

end Dramagotchi
